import Mathlib

/-
Verification development for the pg-schema-migrate tool (main.go).

The Go program is a sequential orchestrator around external binaries
(pg_dump, psql) and a few administrative SQL statements.  We embed it
shallowly: every interaction with the outside world (filesystem, database
server, subprocesses, environment variables) is recorded as an `Event` in a
trace, and the outcome of each external operation is supplied by an `Env`
oracle record.  Each Go function becomes a Lean function from its inputs and
the relevant oracle fields to a pair (trace of events, result).

Faithfulness notes:
- Go `*DatabaseConfig` pointers are modelled as `Option DatabaseConfig`;
  dereferencing `none` yields the distinguished outcome `panicNilDeref`,
  mirroring a Go nil-pointer panic (which terminates the process with a
  non-zero status).  This matters because the export-mode early return in
  performSchemaMigration (main.go lines 342-345) is commented out in the
  source, so export mode reaches the direct-mode code with a nil destination.
- `sql.Open` + query/exec on one connection are folded into a single
  oracle outcome per call site (the Go code opens a short-lived connection,
  runs one statement, and closes it via defer on every path).
- `filepath.Join` is modelled as slash concatenation without path cleaning;
  paths are treated as opaque strings by every claim.
- `time.Now().Format(...)` is modelled by the oracle field `Env.now`.
- Go `defer os.Unsetenv(...)` runs on every return path; the embedding
  writes the corresponding `unsetEnv` events explicitly on each path, in
  LIFO defer order (PGSSLMODE is unset before PGPASSWORD).
- Log output other than warnings is not claim-relevant and is not recorded;
  warnings are recorded because the spec distinguishes warn-and-continue
  from abort.
-/

namespace PgSchemaMigrate

/-- Go struct DatabaseConfig (main.go:22). -/
structure DatabaseConfig where
  Host : String
  Port : String
  Username : String
  Password : String
  Database : String
  SSLMode : String
deriving DecidableEq

/-- Go struct MigrationOptions (main.go:32). -/
structure MigrationOptions where
  Mode : String
  OutputDir : String
  CreateBackup : Bool
  BackupDir : String
  IncludeRoles : Bool
  IncludeData : Bool
  DryRun : Bool
deriving DecidableEq

/-- Which server a direct SQL connection is opened against. -/
inductive Role
  | source
  | dest
deriving DecidableEq

/-- External binaries invoked as subprocesses. -/
inductive Tool
  | pg_dump
  | psql
deriving DecidableEq

/-- Environment variables used to pass credentials and SSL mode. -/
inductive EnvVar
  | PGPASSWORD
  | PGSSLMODE
deriving DecidableEq

/-- Administrative SQL statements issued over direct connections. -/
inductive SQLStmt
  | queryExists (dbname : String)
  | terminateSessions (dbname : String)
  | dropDatabase (dbname : String)
  | createDatabase (dbname : String)
deriving DecidableEq

/-- One observable interaction with the outside world. -/
inductive Event
  | mkdirAll (dir : String)
  | openConn (role : Role) (host : String) (dbname : String)
  | execSQL (stmt : SQLStmt) (ok : Bool)
  | setEnv (v : EnvVar) (value : String)
  | unsetEnv (v : EnvVar)
  | invoke (tool : Tool) (argv : List String) (ok : Bool)
  | warn (msg : String)
  | writeFile (path : String) (contents : String) (perm : Nat) (ok : Bool)
  | dryRunReport
deriving DecidableEq

/-- Result of one orchestrator run: normal success, a Go error value, or a
runtime nil-pointer panic. -/
inductive RunOutcome
  | ok
  | error (msg : String)
  | panicNilDeref
deriving DecidableEq

/-- Process exit behaviour of runSchemaMigration: exit 0, os.Exit(1), or a
runtime panic (non-zero exit). -/
inductive ExitStatus
  | ok
  | fail
  | panicked
deriving DecidableEq

/-- Oracle for the outcomes of all external operations during one run.
`none` means the operation succeeds; `some msg` is the Go error text.
The two `databaseExists` call sites (backup and drop) get independent
outcomes because they run at different times. -/
structure Env where
  now : String
  mkdirErr : Option String
  sourcePingErr : Option String
  destPingErr : Option String
  exportRunErr : Option String
  backupExists : Except String Bool
  backupRunErr : Option String
  dropExists : Except String Bool
  terminateErr : Option String
  dropErr : Option String
  createErr : Option String
  applyRunErr : Option String
  rollbackWriteErr : Option String

/-- filepath.Join modelled as slash concatenation (no path cleaning). -/
def filepathJoin (a b : String) : String := a ++ "/" ++ b

/-- Go validModes (main.go:266). -/
def validModes : List String := ["disable", "require", "verify-ca", "verify-full"]

/-- validateSSLMode (main.go:265): linear scan of validModes. -/
def validateSSLMode (sslMode : String) : Except String Unit :=
  if validModes.contains sslMode then .ok ()
  else .error ("must be one of: " ++ String.intercalate ", " validModes)

/-- removeFromSlice (main.go:749). -/
def removeFromSlice (slice : List String) (item : String) : List String :=
  slice.filter (fun s => s != item)

/-- parseMigrationOptions (main.go:160).  The error message in the source
contains quote characters around the mode names; they are elided here. -/
def parseMigrationOptions (mode outputDir : String)
    (dryRun includeRoles noBackup : Bool) : Except String MigrationOptions :=
  if mode != "direct" && mode != "export" then
    .error "mode must be direct or export"
  else
    .ok { Mode := mode, OutputDir := outputDir, CreateBackup := !noBackup,
          BackupDir := filepathJoin outputDir "backup",
          IncludeRoles := includeRoles, IncludeData := true, DryRun := dryRun }

/-- Command-line flag values handed to runSchemaMigration by the CLI layer. -/
structure Flags where
  sourceHost : String
  sourcePort : String
  sourceUser : String
  sourceDB : String
  sourceSSL : String
  destHost : String
  destPort : String
  destUser : String
  destDB : String
  destSSL : String
  mode : String
  outputDir : String
  dryRun : Bool
  includeRoles : Bool
  noBackup : Bool

/-- Interactive terminal input (password prompts and the destination-name
choice dialogue of getDestConfig). -/
structure Stdin where
  sourcePassword : Except String String
  destPassword : Except String String
  destChoice : String
  destNameInput : String

/-- getSourceConfig (main.go:182): validates the SSL mode, then reads the
source password from the terminal. -/
def getSourceConfig (flags : Flags) (stdin : Stdin) :
    Except String DatabaseConfig :=
  match validateSSLMode flags.sourceSSL with
  | .error e => .error ("invalid source SSL mode: " ++ e)
  | .ok _ =>
    match stdin.sourcePassword with
    | .error e => .error ("failed to read source password: " ++ e)
    | .ok pw =>
      .ok { Host := flags.sourceHost, Port := flags.sourcePort,
            Username := flags.sourceUser, Password := pw,
            Database := flags.sourceDB, SSLMode := flags.sourceSSL }

/-- getDestConfig (main.go:209): validates the SSL mode, reads the
destination password, and resolves an empty dest-db flag interactively. -/
def getDestConfig (flags : Flags) (stdin : Stdin) (sourceDBName : String) :
    Except String DatabaseConfig :=
  match validateSSLMode flags.destSSL with
  | .error e => .error ("invalid destination SSL mode: " ++ e)
  | .ok _ =>
    match stdin.destPassword with
    | .error e => .error ("failed to read destination password: " ++ e)
    | .ok pw =>
      let destDBRes : Except String String :=
        if flags.destDB == "" then
          match stdin.destChoice with
          | "1" => .ok sourceDBName
          | "2" => .ok stdin.destNameInput
          | c => .error ("invalid choice: " ++ c)
        else .ok flags.destDB
      match destDBRes with
      | .error e => .error e
      | .ok db =>
        .ok { Host := flags.destHost, Port := flags.destPort,
              Username := flags.destUser, Password := pw,
              Database := db, SSLMode := flags.destSSL }

/-- validateSourceConnection (main.go:284): opens a connection to the source
server with dbname = source.Database and pings it. -/
def validateSourceConnection (pingErr : Option String)
    (source : DatabaseConfig) : List Event × Except String Unit :=
  match pingErr with
  | some e => ([.openConn .source source.Host source.Database],
               .error ("source database ping failed: " ++ e))
  | none => ([.openConn .source source.Host source.Database], .ok ())

/-- validateConnections (main.go:303): validates the source, then opens a
connection to the destination server with dbname = postgres and pings it. -/
def validateConnections (sourcePingErr destPingErr : Option String)
    (source dest : DatabaseConfig) : List Event × Except String Unit :=
  let s := validateSourceConnection sourcePingErr source
  match s.2 with
  | .error e => (s.1, .error e)
  | .ok _ =>
    match destPingErr with
    | some e => (s.1 ++ [.openConn .dest dest.Host "postgres"],
                 .error ("destination server ping failed: " ++ e))
    | none => (s.1 ++ [.openConn .dest dest.Host "postgres"], .ok ())

/-- createDirectories (main.go:386): MkdirAll for the output dir and, when
backups are enabled, the backup dir.  A failure is modelled as hitting the
first directory. -/
def createDirectories (mkdirErr : Option String) (options : MigrationOptions) :
    List Event × Except String Unit :=
  match mkdirErr with
  | some e => ([.mkdirAll options.OutputDir], .error e)
  | none =>
    match options.CreateBackup with
    | true => ([.mkdirAll options.OutputDir, .mkdirAll options.BackupDir], .ok ())
    | false => ([.mkdirAll options.OutputDir], .ok ())

/-- Argument list built by exportSchema (main.go:410). -/
def exportArgs (config : DatabaseConfig) (outputFile : String)
    (options : MigrationOptions) : List String :=
  let args := ["-h", config.Host, "-p", config.Port, "-U", config.Username,
               "-d", config.Database, "-f", outputFile, "--schema-only",
               "--no-owner", "--no-privileges", "--verbose", "--no-password"]
  match options.IncludeRoles with
  | true => removeFromSlice args "--no-privileges"
  | false => args

/-- exportSchema (main.go:400): sets PGPASSWORD and PGSSLMODE, runs pg_dump
schema-only, and unsets both variables (deferred, LIFO) on every path. -/
def exportSchema (runErr : Option String) (config : DatabaseConfig)
    (outputFile : String) (options : MigrationOptions) :
    List Event × Except String Unit :=
  let args := exportArgs config outputFile options
  match runErr with
  | some e =>
      ([.setEnv .PGPASSWORD config.Password, .setEnv .PGSSLMODE config.SSLMode,
        .invoke .pg_dump args false,
        .unsetEnv .PGSSLMODE, .unsetEnv .PGPASSWORD],
       .error ("pg_dump failed: " ++ e))
  | none =>
      ([.setEnv .PGPASSWORD config.Password, .setEnv .PGSSLMODE config.SSLMode,
        .invoke .pg_dump args true,
        .unsetEnv .PGSSLMODE, .unsetEnv .PGPASSWORD],
       .ok ())

/-- databaseExists (main.go:503): connects to the destination server with
dbname = postgres and runs a parameterized catalog existence query. -/
def databaseExists (outcome : Except String Bool) (config : DatabaseConfig) :
    List Event × Except String Bool :=
  match outcome with
  | .error e => ([.openConn .dest config.Host "postgres",
                  .execSQL (.queryExists config.Database) false], .error e)
  | .ok b => ([.openConn .dest config.Host "postgres",
               .execSQL (.queryExists config.Database) true], .ok b)

/-- Argument list built by createDestinationBackup (main.go:461). -/
def backupArgs (config : DatabaseConfig) (backupFile : String)
    (options : MigrationOptions) : List String :=
  let args := ["-h", config.Host, "-p", config.Port, "-U", config.Username,
               "-d", config.Database, "-f", backupFile,
               "--verbose", "--no-password"]
  match options.IncludeData with
  | true => args
  | false => args ++ ["--schema-only"]

/-- createDestinationBackup (main.go:441): checks existence first; if the
destination database is absent it returns success without running pg_dump.
Otherwise it sets the credential variables, runs a full pg_dump, and unsets
them on every path. -/
def createDestinationBackup (existsOutcome : Except String Bool)
    (runErr : Option String) (config : DatabaseConfig) (backupFile : String)
    (options : MigrationOptions) : List Event × Except String Unit :=
  let ex := databaseExists existsOutcome config
  match ex.2 with
  | .error e => (ex.1, .error e)
  | .ok false => (ex.1, .ok ())
  | .ok true =>
    let args := backupArgs config backupFile options
    match runErr with
    | some e =>
        (ex.1 ++ [.setEnv .PGPASSWORD config.Password,
                  .setEnv .PGSSLMODE config.SSLMode,
                  .invoke .pg_dump args false,
                  .unsetEnv .PGSSLMODE, .unsetEnv .PGPASSWORD],
         .error ("backup pg_dump failed: " ++ e))
    | none =>
        (ex.1 ++ [.setEnv .PGPASSWORD config.Password,
                  .setEnv .PGSSLMODE config.SSLMode,
                  .invoke .pg_dump args true,
                  .unsetEnv .PGSSLMODE, .unsetEnv .PGPASSWORD],
         .ok ())

/-- dropDatabaseIfExists (main.go:520): existence check; if present, opens an
admin connection (dbname = postgres), best-effort terminates other sessions
(failure is a warning), then drops the database. -/
def dropDatabaseIfExists (existsOutcome : Except String Bool)
    (terminateErr dropErr : Option String) (config : DatabaseConfig) :
    List Event × Except String Unit :=
  let ex := databaseExists existsOutcome config
  match ex.2 with
  | .error e => (ex.1, .error e)
  | .ok false => (ex.1, .ok ())
  | .ok true =>
    let tTerm : List Event :=
      match terminateErr with
      | some e => [.execSQL (.terminateSessions config.Database) false,
                   .warn ("Could not terminate all connections: " ++ e)]
      | none => [.execSQL (.terminateSessions config.Database) true]
    match dropErr with
    | some e =>
        (ex.1 ++ [.openConn .dest config.Host "postgres"] ++ tTerm ++
           [.execSQL (.dropDatabase config.Database) false],
         .error e)
    | none =>
        (ex.1 ++ [.openConn .dest config.Host "postgres"] ++ tTerm ++
           [.execSQL (.dropDatabase config.Database) true],
         .ok ())

/-- createDatabase (main.go:564): opens an admin connection (dbname =
postgres) and issues CREATE DATABASE on the quoted destination name. -/
def createDatabase (createErr : Option String) (config : DatabaseConfig) :
    List Event × Except String Unit :=
  match createErr with
  | some e => ([.openConn .dest config.Host "postgres",
                .execSQL (.createDatabase config.Database) false], .error e)
  | none => ([.openConn .dest config.Host "postgres",
              .execSQL (.createDatabase config.Database) true], .ok ())

/-- recreateDestinationDatabase (main.go:490): drop-if-exists, then create;
the first failure is returned unchanged. -/
def recreateDestinationDatabase (env : Env) (config : DatabaseConfig) :
    List Event × Except String Unit :=
  let d := dropDatabaseIfExists env.dropExists env.terminateErr env.dropErr config
  match d.2 with
  | .error e => (d.1, .error e)
  | .ok _ =>
    let c := createDatabase env.createErr config
    (d.1 ++ c.1, c.2)

/-- applySchema (main.go:586): sets the credential variables, runs psql with
the schema file against the destination database, and unsets them on every
path. -/
def applySchema (runErr : Option String) (config : DatabaseConfig)
    (schemaFile : String) : List Event × Except String Unit :=
  let args := ["-h", config.Host, "-p", config.Port, "-U", config.Username,
               "-d", config.Database, "-f", schemaFile, "--no-password"]
  match runErr with
  | some e =>
      ([.setEnv .PGPASSWORD config.Password, .setEnv .PGSSLMODE config.SSLMode,
        .invoke .psql args false,
        .unsetEnv .PGSSLMODE, .unsetEnv .PGPASSWORD],
       .error ("psql schema application failed: " ++ e))
  | none =>
      ([.setEnv .PGPASSWORD config.Password, .setEnv .PGSSLMODE config.SSLMode,
        .invoke .psql args true,
        .unsetEnv .PGSSLMODE, .unsetEnv .PGPASSWORD],
       .ok ())

/-- The shell script text produced by generateRollbackScript (main.go:622),
transcribed from the Go format string with its placeholders substituted in
source order.  Note the literal empty PGPASSWORD assignment: the actual
password is never written into the script. -/
def rollbackScriptContent (now : String) (config : DatabaseConfig)
    (backupFile : String) : String :=
  "#!/bin/bash\n# Rollback script generated by pg-schema-migrate\n# Created: "
  ++ now ++ "\n# Database: "
  ++ config.Username ++ "@" ++ config.Host ++ ":" ++ config.Port
  ++ "\n\necho \"WARNING: This will restore the database to its previous state!\"\necho \"This will DROP the current database and restore from backup.\"\nread -p \"Are you sure you want to continue? (yes/no): \" confirm\n\nif [ \"$confirm\" = \"yes\" ]; then\n    echo \"Starting rollback...\"\n\n    # Set password (you will need to enter it)\n    export PGPASSWORD=\"\"\n    export PGSSLMODE=\""
  ++ config.SSLMode
  ++ "\"\n\n    # Drop current database\n    echo \"Dropping current database...\"\n    psql -h "
  ++ config.Host ++ " -p " ++ config.Port ++ " -U " ++ config.Username
  ++ " -d postgres -c \"DROP DATABASE IF EXISTS " ++ config.Database
  ++ ";\"\n\n    # Create database\n    echo \"Creating database...\"\n    psql -h "
  ++ config.Host ++ " -p " ++ config.Port ++ " -U " ++ config.Username
  ++ " -d postgres -c \"CREATE DATABASE " ++ config.Database
  ++ ";\"\n\n    # Restore from backup\n    echo \"Restoring from backup...\"\n    psql -h "
  ++ config.Host ++ " -p " ++ config.Port ++ " -U " ++ config.Username
  ++ " -d " ++ config.Database ++ " -f " ++ backupFile
  ++ "\n\n    echo \"Rollback completed!\"\nelse\n    echo \"Rollback cancelled.\"\nfi\n"

/-- generateRollbackScript (main.go:614): no-op success when backups are
disabled or no backup path was computed; otherwise writes rollback.sh with
mode 0755 (= 493). -/
def generateRollbackScript (writeErr : Option String) (now : String)
    (config : DatabaseConfig) (backupFile : String)
    (options : MigrationOptions) : List Event × Except String Unit :=
  match !options.CreateBackup || backupFile == "" with
  | true => ([], .ok ())
  | false =>
    let path := filepathJoin options.OutputDir "rollback.sh"
    let script := rollbackScriptContent now config backupFile
    match writeErr with
    | some e => ([.writeFile path script 493 false], .error e)
    | none => ([.writeFile path script 493 true], .ok ())

/-- performSchemaMigration (main.go:328).  The export-mode early return in
the source is commented out, so when `dest` is `none` (export mode) control
falls through into the direct-mode steps and the first dereference of the
nil destination pointer panics: at the backup-file path construction when
backups are enabled (line 352), at the dry-run report (line 360), or inside
recreateDestinationDatabase (line 504) otherwise.  In every such case the
events produced so far are exactly the directory creations and the export. -/
def performSchemaMigration (env : Env) (source : DatabaseConfig)
    (dest : Option DatabaseConfig) (options : MigrationOptions) :
    List Event × RunOutcome :=
  let timestamp := env.now
  let dirs := createDirectories env.mkdirErr options
  match dirs.2 with
  | .error e => (dirs.1, .error ("failed to create directories: " ++ e))
  | .ok _ =>
    let schemaFile := filepathJoin options.OutputDir
      ("schema_" ++ source.Database ++ "_" ++ timestamp ++ ".sql")
    let exp := exportSchema env.exportRunErr source schemaFile options
    match exp.2 with
    | .error e => (dirs.1 ++ exp.1, .error ("failed to export schema: " ++ e))
    | .ok _ =>
      match dest with
      | none => (dirs.1 ++ exp.1, .panicNilDeref)
      | some d =>
        let bt : String × List Event :=
          match options.CreateBackup with
          | true =>
            let backupFile := filepathJoin options.BackupDir
              ("backup_" ++ d.Database ++ "_" ++ timestamp ++ ".sql")
            let b := createDestinationBackup env.backupExists env.backupRunErr
              d backupFile options
            match b.2 with
            | .error e =>
                (backupFile,
                 b.1 ++ [.warn ("Backup creation failed (continuing): " ++ e)])
            | .ok _ => (backupFile, b.1)
          | false => ("", [])
        let backupFile := bt.1
        let tBackup := bt.2
        match options.DryRun with
        | true =>
          let r := generateRollbackScript env.rollbackWriteErr env.now d
            backupFile options
          (dirs.1 ++ exp.1 ++ tBackup ++ [.dryRunReport] ++ r.1,
           match r.2 with
           | .ok _ => .ok
           | .error e => .error e)
        | false =>
          let rec_ := recreateDestinationDatabase env d
          match rec_.2 with
          | .error e =>
              (dirs.1 ++ exp.1 ++ tBackup ++ rec_.1,
               .error ("failed to recreate destination database: " ++ e))
          | .ok _ =>
            let app := applySchema env.applyRunErr d schemaFile
            match app.2 with
            | .error e =>
                (dirs.1 ++ exp.1 ++ tBackup ++ rec_.1 ++ app.1,
                 .error ("failed to apply schema: " ++ e))
            | .ok _ =>
              let r := generateRollbackScript env.rollbackWriteErr env.now d
                backupFile options
              let tWarn : List Event :=
                match r.2 with
                | .error e =>
                    [.warn ("Failed to generate rollback script: " ++ e)]
                | .ok _ => []
              (dirs.1 ++ exp.1 ++ tBackup ++ rec_.1 ++ app.1 ++ r.1 ++ tWarn,
               .ok)

/-- runSchemaMigration (main.go:112): option parsing, configuration
acquisition (mode-dependent), connection validation, then the migration.
Every error path calls os.Exit(1); a panic terminates with a non-zero
status distinct from a clean exit. -/
def runSchemaMigration (env : Env) (flags : Flags) (stdin : Stdin) :
    List Event × ExitStatus :=
  match parseMigrationOptions flags.mode flags.outputDir flags.dryRun
      flags.includeRoles flags.noBackup with
  | .error _ => ([], .fail)
  | .ok options =>
    match getSourceConfig flags stdin with
    | .error _ => ([], .fail)
    | .ok sourceConfig =>
      match options.Mode == "direct" with
      | true =>
        match getDestConfig flags stdin sourceConfig.Database with
        | .error _ => ([], .fail)
        | .ok destConfig =>
          let v := validateConnections env.sourcePingErr env.destPingErr
            sourceConfig destConfig
          match v.2 with
          | .error _ => (v.1, .fail)
          | .ok _ =>
            let m := performSchemaMigration env sourceConfig (some destConfig)
              options
            (v.1 ++ m.1,
             match m.2 with
             | .ok => .ok
             | .error _ => .fail
             | .panicNilDeref => .panicked)
      | false =>
        let v := validateSourceConnection env.sourcePingErr sourceConfig
        match v.2 with
        | .error _ => (v.1, .fail)
        | .ok _ =>
          let m := performSchemaMigration env sourceConfig none options
          (v.1 ++ m.1,
           match m.2 with
           | .ok => .ok
           | .error _ => .fail
           | .panicNilDeref => .panicked)

/-! Trace observers.  These are executable checkers over the event traces;
the claim theorems are stated in terms of them. -/

/-- A psql subprocess invocation; applySchema is the only function that
invokes psql. -/
def isApplyInvoke : Event → Bool
  | .invoke .psql _ _ => true
  | _ => false

/-- A pg_dump subprocess invocation (schema export or destination backup). -/
def isPgDumpInvoke : Event → Bool
  | .invoke .pg_dump _ _ => true
  | _ => false

/-- Any subprocess invocation. -/
def isInvoke : Event → Bool
  | .invoke _ _ _ => true
  | _ => false

/-- A successful CREATE DATABASE statement on the destination. -/
def isCreateOkEvent : Event → Bool
  | .execSQL (.createDatabase _) true => true
  | _ => false

/-- A successful DROP DATABASE statement on the destination. -/
def isDropOkEvent : Event → Bool
  | .execSQL (.dropDatabase _) true => true
  | _ => false

/-- A catalog existence query. -/
def isQueryExists : Event → Bool
  | .execSQL (.queryExists _) _ => true
  | _ => false

/-- A file write (only the rollback script is written directly). -/
def isWriteFile : Event → Bool
  | .writeFile _ _ _ _ => true
  | _ => false

/-- A direct SQL connection opened against the destination server. -/
def isDestConn : Event → Bool
  | .openConn .dest _ _ => true
  | _ => false

/-- Events that neither drop nor create a database nor run psql.  The name
marks the events that cannot mutate the destination database. -/
def quietEvent : Event → Bool
  | .execSQL (.dropDatabase _) _ => false
  | .execSQL (.createDatabase _) _ => false
  | .invoke .psql _ _ => false
  | _ => true

/-- A trace consisting only of quiet events. -/
def quiet (t : List Event) : Bool := t.all quietEvent

/-- Left-to-right scan: every psql invocation must occur after a successful
CREATE DATABASE (the accumulator records whether one has been seen). -/
def applyOnlyAfterCreateOk : Bool → List Event → Bool
  | _, [] => true
  | s, e :: r =>
    if isApplyInvoke e then s && applyOnlyAfterCreateOk s r
    else applyOnlyAfterCreateOk (s || isCreateOkEvent e) r

/-- Abstract state of the destination database as recorded by the trace. -/
inductive DestDBState
  | initial
  | dropped
  | created
deriving DecidableEq

/-- One trace step acting on the destination-database state. -/
def destStateStep : DestDBState → Event → DestDBState
  | _, .execSQL (.dropDatabase _) true => .dropped
  | _, .execSQL (.createDatabase _) true => .created
  | s, _ => s

/-- Destination-database state after a trace, starting from `s`. -/
def destStateFrom (s : DestDBState) (t : List Event) : DestDBState :=
  t.foldl destStateStep s

/-- Destination-database state after a full run. -/
def destStateAfter (t : List Event) : DestDBState := destStateFrom .initial t

/-- Left-to-right scan: every subprocess invocation must occur while
PGPASSWORD is set in the process environment. -/
def invokesUnderPgpw : Bool → List Event → Bool
  | _, [] => true
  | _, .setEnv .PGPASSWORD _ :: r => invokesUnderPgpw true r
  | _, .unsetEnv .PGPASSWORD :: r => invokesUnderPgpw false r
  | s, .invoke _ _ _ :: r => s && invokesUnderPgpw s r
  | s, _ :: r => invokesUnderPgpw s r

/-- Whether PGPASSWORD is set after running the trace, starting from `s`. -/
def pgpwFrom (s : Bool) (t : List Event) : Bool :=
  t.foldl (fun acc e =>
    match e with
    | .setEnv .PGPASSWORD _ => true
    | .unsetEnv .PGPASSWORD => false
    | _ => acc) s

/-- The argument vectors of all subprocess invocations in a trace. -/
def invokeArgvs (t : List Event) : List (List String) :=
  t.filterMap (fun e =>
    match e with
    | .invoke _ a _ => some a
    | _ => none)

/-- Destination-side connections must use the postgres maintenance
database; other events are unconstrained. -/
def destConnOk : Event → Bool
  | .openConn .dest _ db => db == "postgres"
  | _ => true

/-- String s contains x as a contiguous substring. -/
def embedsIn (s x : String) : Prop := ∃ a b, s = a ++ x ++ b

/-! Concrete fixtures for counterexamples and witnesses. -/

/-- Oracle in which every external operation succeeds and the destination
database already exists. -/
def envAllOk : Env :=
  { now := "20240806_143022", mkdirErr := none, sourcePingErr := none,
    destPingErr := none, exportRunErr := none, backupExists := .ok true,
    backupRunErr := none, dropExists := .ok true, terminateErr := none,
    dropErr := none, createErr := none, applyRunErr := none,
    rollbackWriteErr := none }

/-- A source profile for the database named reports. -/
def srcReports : DatabaseConfig :=
  { Host := "localhost", Port := "5432", Username := "postgres",
    Password := "pw", Database := "reports", SSLMode := "require" }

/-- A destination profile. -/
def dstStaging : DatabaseConfig :=
  { Host := "dest.example.com", Port := "5432", Username := "admin",
    Password := "pw2", Database := "shop_staging", SSLMode := "require" }

/-- Direct-mode options with backups enabled (the flag defaults). -/
def optsDirect : MigrationOptions :=
  { Mode := "direct", OutputDir := "./schema_migration", CreateBackup := true,
    BackupDir := "./schema_migration/backup", IncludeRoles := false,
    IncludeData := true, DryRun := false }

/-- Direct-mode options with backups disabled. -/
def optsNoBackup : MigrationOptions := { optsDirect with CreateBackup := false }

/-- Export-mode flags for source database reports with output dir ./out and
all other flags at their defaults (in particular backups enabled). -/
def flagsExportReports : Flags :=
  { sourceHost := "localhost", sourcePort := "5432", sourceUser := "postgres",
    sourceDB := "reports", sourceSSL := "require", destHost := "localhost",
    destPort := "5432", destUser := "postgres", destDB := "",
    destSSL := "require", mode := "export", outputDir := "./out",
    dryRun := false, includeRoles := false, noBackup := false }

/-- Terminal input in which both password prompts succeed. -/
def stdinOk : Stdin :=
  { sourcePassword := .ok "pw", destPassword := .ok "pw2",
    destChoice := "1", destNameInput := "" }

/-- Options equal to what parseMigrationOptions builds from
flagsExportReports: export mode, dry-run off, backups on. -/
def optsExport : MigrationOptions :=
  { Mode := "export", OutputDir := "./out", CreateBackup := true,
    BackupDir := "./out/backup", IncludeRoles := false,
    IncludeData := true, DryRun := false }

/-! Generic lemmas about the trace observers. -/

theorem isCreateOk_of_apply {e : Event} (h : isApplyInvoke e = true) :
    isCreateOkEvent e = false := by
  cases e with
  | invoke tool argv ok => cases tool <;> simp_all [isApplyInvoke, isCreateOkEvent]
  | execSQL stmt ok => cases stmt <;> cases ok <;> simp_all [isApplyInvoke, isCreateOkEvent]
  | _ => simp_all [isApplyInvoke, isCreateOkEvent]

theorem applyOnlyAfterCreateOk_append (s : Bool) (a b : List Event) :
    applyOnlyAfterCreateOk s (a ++ b)
      = (applyOnlyAfterCreateOk s a
         && applyOnlyAfterCreateOk (s || a.any isCreateOkEvent) b) := by
  induction a generalizing s with
  | nil => simp [applyOnlyAfterCreateOk]
  | cons e r ih =>
    by_cases h : isApplyInvoke e = true
    · simp [applyOnlyAfterCreateOk, h, ih, isCreateOk_of_apply h, Bool.and_assoc]
    · simp only [Bool.not_eq_true] at h
      simp [applyOnlyAfterCreateOk, h, ih, Bool.or_assoc]

theorem destStateFrom_append (s : DestDBState) (a b : List Event) :
    destStateFrom s (a ++ b) = destStateFrom (destStateFrom s a) b := by
  simp [destStateFrom, List.foldl_append]

theorem destStateFrom_nil (s : DestDBState) : destStateFrom s [] = s := rfl

theorem destStateFrom_cons (s : DestDBState) (e : Event) (t : List Event) :
    destStateFrom s (e :: t) = destStateFrom (destStateStep s e) t := rfl

theorem destStateFrom_warn (s : DestDBState) (m : String) :
    destStateFrom s [.warn m] = s := rfl

theorem destStateFrom_report (s : DestDBState) :
    destStateFrom s [.dryRunReport] = s := rfl

theorem quiet_append (a b : List Event) :
    quiet (a ++ b) = (quiet a && quiet b) := by
  simp [quiet, List.all_append]

theorem quiet_noApply {t : List Event} (h : quiet t = true) :
    t.all (fun e => !isApplyInvoke e) = true := by
  induction t with
  | nil => rfl
  | cons e r ih =>
    simp only [quiet, List.all_cons, Bool.and_eq_true] at h ⊢
    refine ⟨?_, ih h.2⟩
    cases e with
    | invoke tool argv ok => cases tool <;> simp_all [quietEvent, isApplyInvoke]
    | _ => simp_all [isApplyInvoke]

theorem noApply_applyCheck {t : List Event}
    (h : t.all (fun e => !isApplyInvoke e) = true) (s : Bool) :
    applyOnlyAfterCreateOk s t = true := by
  induction t generalizing s with
  | nil => rfl
  | cons e r ih =>
    simp only [List.all_cons, Bool.and_eq_true, Bool.not_eq_true'] at h
    simp [applyOnlyAfterCreateOk, h.1, ih h.2]

theorem quiet_applyCheck {t : List Event} (h : quiet t = true) (s : Bool) :
    applyOnlyAfterCreateOk s t = true :=
  noApply_applyCheck (quiet_noApply h) s

theorem quiet_destState {t : List Event} (h : quiet t = true) (s : DestDBState) :
    destStateFrom s t = s := by
  induction t generalizing s with
  | nil => rfl
  | cons e r ih =>
    simp only [quiet, List.all_cons, Bool.and_eq_true] at h
    have step : destStateStep s e = s := by
      cases e with
      | execSQL stmt ok => cases stmt <;> cases ok <;> simp_all [quietEvent, destStateStep]
      | _ => simp [destStateStep]
    have h2 : quiet r = true := h.2
    simp [destStateFrom, List.foldl_cons, step]
    exact ih h2 s

/-! Per-component facts. -/

theorem quiet_createDirectories (m : Option String) (o : MigrationOptions) :
    quiet (createDirectories m o).1 = true := by
  cases m <;> by_cases h : o.CreateBackup = true <;>
    simp [createDirectories, h, quiet, quietEvent]

theorem quiet_exportSchema (r : Option String) (c : DatabaseConfig)
    (f : String) (o : MigrationOptions) :
    quiet (exportSchema r c f o).1 = true := by
  cases r <;> simp [exportSchema, quiet, quietEvent]

theorem quiet_createDestinationBackup (eo : Except String Bool)
    (r : Option String) (c : DatabaseConfig) (bf : String)
    (o : MigrationOptions) :
    quiet (createDestinationBackup eo r c bf o).1 = true := by
  unfold createDestinationBackup databaseExists
  rcases eo with e | b
  · simp [quiet, quietEvent]
  · cases b <;> cases r <;> simp [quiet, quietEvent]

theorem quiet_generateRollbackScript (w : Option String) (n : String)
    (c : DatabaseConfig) (bf : String) (o : MigrationOptions) :
    quiet (generateRollbackScript w n c bf o).1 = true := by
  unfold generateRollbackScript
  split
  · simp [quiet]
  · cases w <;> simp [quiet, quietEvent]

theorem recreate_noApply (env : Env) (c : DatabaseConfig) :
    (recreateDestinationDatabase env c).1.all (fun e => !isApplyInvoke e) = true := by
  obtain ⟨n1, m1, s1, d1, e1, b1, b2, de, te, dr, cr, a1, r1⟩ := env
  unfold recreateDestinationDatabase dropDatabaseIfExists createDatabase databaseExists
  rcases de with e | b
  · simp [isApplyInvoke]
  · cases b <;> cases te <;> cases dr <;> cases cr <;> simp [isApplyInvoke]

theorem recreate_ok_created (env : Env) (c : DatabaseConfig)
    (h : (recreateDestinationDatabase env c).2 = .ok ()) (s : DestDBState) :
    (recreateDestinationDatabase env c).1.any isCreateOkEvent = true ∧
      destStateFrom s (recreateDestinationDatabase env c).1 = .created := by
  obtain ⟨n1, m1, s1, d1, e1, b1, b2, de, te, dr, cr, a1, r1⟩ := env
  unfold recreateDestinationDatabase dropDatabaseIfExists createDatabase databaseExists at h ⊢
  rcases de with e | b
  · simp at h
  · cases b <;> cases te <;> cases dr <;> cases cr <;>
      simp_all [isCreateOkEvent, destStateFrom, destStateStep]

theorem applySchema_check (r : Option String) (c : DatabaseConfig) (f : String) :
    applyOnlyAfterCreateOk true (applySchema r c f).1 = true := by
  cases r <;> simp [applySchema, applyOnlyAfterCreateOk, isApplyInvoke, isCreateOkEvent]

theorem applySchema_destState (r : Option String) (c : DatabaseConfig)
    (f : String) (s : DestDBState) :
    destStateFrom s (applySchema r c f).1 = s := by
  cases r <;> simp [applySchema, destStateFrom, destStateStep]

set_option maxHeartbeats 1000000

/-- C2: in every run, applySchema is invoked only after
recreateDestinationDatabase has returned success in that same run (scanned
as: every psql invocation in the trace is preceded by a successful CREATE
DATABASE, which is the final step of a successful recreate), and a run that
returns success never leaves the destination database in a
dropped-but-not-recreated state. -/
theorem apply_only_after_recreate_success (env : Env) (src : DatabaseConfig) (dst : Option DatabaseConfig)
    (opts : MigrationOptions) :
    applyOnlyAfterCreateOk false (performSchemaMigration env src dst opts).1 = true ∧
      ((performSchemaMigration env src dst opts).2 = .ok →
        destStateAfter (performSchemaMigration env src dst opts).1 ≠ .dropped) := by
  have qd := quiet_createDirectories env.mkdirErr opts
  unfold performSchemaMigration
  cases h1 : (createDirectories env.mkdirErr opts).2 <;> simp only [h1]
  · exact ⟨quiet_applyCheck qd false, by simp⟩
  set sf := filepathJoin opts.OutputDir ("schema_" ++ src.Database ++ "_" ++ env.now ++ ".sql") with hsf
  have qe := quiet_exportSchema env.exportRunErr src sf opts
  cases h2 : (exportSchema env.exportRunErr src sf opts).2 <;> simp only [h2]
  · exact ⟨by simp [applyOnlyAfterCreateOk_append, quiet_applyCheck qd, quiet_applyCheck qe], by simp⟩
  cases dst with
  | none =>
    exact ⟨by simp [applyOnlyAfterCreateOk_append, quiet_applyCheck qd, quiet_applyCheck qe], by simp⟩
  | some d =>
    dsimp only
    set bf := filepathJoin opts.BackupDir ("backup_" ++ d.Database ++ "_" ++ env.now ++ ".sql") with hbf
    have qb := quiet_createDestinationBackup env.backupExists env.backupRunErr d bf opts
    have qr := quiet_generateRollbackScript env.rollbackWriteErr env.now d bf opts
    have qr0 := quiet_generateRollbackScript env.rollbackWriteErr env.now d "" opts
    have hra := recreate_noApply env d
    cases hCB : opts.CreateBackup <;> simp only [hCB]
    case false =>
      cases hdry : opts.DryRun <;> simp only [hdry]
      case false =>
        cases h4 : (recreateDestinationDatabase env d).2 <;> simp only [h4]
        · exact ⟨by simp [applyOnlyAfterCreateOk_append, quiet_applyCheck qd, quiet_applyCheck qe,
            noApply_applyCheck hra], by simp⟩
        · have hrc := recreate_ok_created env d h4
          have hrc2 : ∀ s, destStateFrom s (recreateDestinationDatabase env d).1 = .created :=
            fun s => (hrc s).2
          cases h5 : (applySchema env.applyRunErr d sf).2 <;> simp only [h5]
          · exact ⟨by simp [applyOnlyAfterCreateOk_append, quiet_applyCheck qd, quiet_applyCheck qe,
              noApply_applyCheck hra, (hrc DestDBState.initial).1, applySchema_check], by simp⟩
          · cases h6 : (generateRollbackScript env.rollbackWriteErr env.now d "" opts).2 <;>
            · refine ⟨?_, fun _ => ?_⟩
              · simp [h6, applyOnlyAfterCreateOk_append, quiet_applyCheck qd, quiet_applyCheck qe,
                  noApply_applyCheck hra, (hrc DestDBState.initial).1, applySchema_check,
                  quiet_applyCheck qr0, applyOnlyAfterCreateOk, isApplyInvoke, isCreateOkEvent]
              · simp [h6, destStateAfter, destStateFrom_append, quiet_destState qd,
                  quiet_destState qe, hrc2, applySchema_destState, quiet_destState qr0,
                  destStateFrom_warn, destStateFrom_nil, destStateFrom_cons, destStateStep]
      case true =>
        cases h6 : (generateRollbackScript env.rollbackWriteErr env.now d "" opts).2
        · exact ⟨by simp [h6, applyOnlyAfterCreateOk_append, quiet_applyCheck qd, quiet_applyCheck qe,
            quiet_applyCheck qr0, applyOnlyAfterCreateOk, isApplyInvoke, isCreateOkEvent], by simp [h6]⟩
        · refine ⟨?_, fun _ => ?_⟩
          · simp [h6, applyOnlyAfterCreateOk_append, quiet_applyCheck qd, quiet_applyCheck qe,
              quiet_applyCheck qr0, applyOnlyAfterCreateOk, isApplyInvoke, isCreateOkEvent]
          · simp [h6, destStateAfter, destStateFrom_append, quiet_destState qd, quiet_destState qe,
              quiet_destState qr0, destStateFrom_report, destStateFrom_nil, destStateFrom_cons, destStateStep]
    case true =>
      cases h3 : (createDestinationBackup env.backupExists env.backupRunErr d bf opts).2 <;>
        simp only [h3] <;>
      · cases hdry : opts.DryRun <;> simp only [hdry]
        case false =>
          cases h4 : (recreateDestinationDatabase env d).2 <;> simp only [h4]
          · exact ⟨by simp [applyOnlyAfterCreateOk_append, quiet_applyCheck qd, quiet_applyCheck qe,
              quiet_applyCheck qb, noApply_applyCheck hra, applyOnlyAfterCreateOk, isApplyInvoke,
              isCreateOkEvent], by simp⟩
          · have hrc := recreate_ok_created env d h4
            have hrc2 : ∀ s, destStateFrom s (recreateDestinationDatabase env d).1 = .created :=
              fun s => (hrc s).2
            cases h5 : (applySchema env.applyRunErr d sf).2 <;> simp only [h5]
            · exact ⟨by simp [applyOnlyAfterCreateOk_append, quiet_applyCheck qd, quiet_applyCheck qe,
                quiet_applyCheck qb, noApply_applyCheck hra, (hrc DestDBState.initial).1,
                applySchema_check, applyOnlyAfterCreateOk, isApplyInvoke, isCreateOkEvent], by simp⟩
            · cases h6 : (generateRollbackScript env.rollbackWriteErr env.now d bf opts).2 <;>
              · refine ⟨?_, fun _ => ?_⟩
                · simp [h6, applyOnlyAfterCreateOk_append, quiet_applyCheck qd, quiet_applyCheck qe,
                    quiet_applyCheck qb, noApply_applyCheck hra, (hrc DestDBState.initial).1,
                    applySchema_check, quiet_applyCheck qr, applyOnlyAfterCreateOk, isApplyInvoke,
                    isCreateOkEvent]
                · simp [h6, destStateAfter, destStateFrom_append, quiet_destState qd,
                    quiet_destState qe, quiet_destState qb, hrc2, applySchema_destState,
                    quiet_destState qr, destStateFrom_warn, destStateFrom_nil, destStateFrom_cons, destStateStep]
        case true =>
          cases h6 : (generateRollbackScript env.rollbackWriteErr env.now d bf opts).2
          · exact ⟨by simp [h6, applyOnlyAfterCreateOk_append, quiet_applyCheck qd,
              quiet_applyCheck qe, quiet_applyCheck qb, quiet_applyCheck qr, applyOnlyAfterCreateOk,
              isApplyInvoke, isCreateOkEvent], by simp [h6]⟩
          · refine ⟨?_, fun _ => ?_⟩
            · simp [h6, applyOnlyAfterCreateOk_append, quiet_applyCheck qd, quiet_applyCheck qe,
                quiet_applyCheck qb, quiet_applyCheck qr, applyOnlyAfterCreateOk, isApplyInvoke,
                isCreateOkEvent]
            · simp [h6, destStateAfter, destStateFrom_append, quiet_destState qd, quiet_destState qe,
                quiet_destState qb, quiet_destState qr, destStateFrom_report, destStateFrom_warn,
                destStateFrom_nil, destStateFrom_cons, destStateStep]

/-- Witness for C2 at a concrete all-success direct-mode run. -/
theorem apply_only_after_recreate_success_witness :
    destStateAfter (performSchemaMigration envAllOk srcReports (some dstStaging)
      optsDirect).1 ≠ .dropped :=
  (apply_only_after_recreate_success envAllOk srcReports (some dstStaging)
    optsDirect).2 (by rfl)

theorem validateSSLMode_iff_mem (s : String) :
    validateSSLMode s = .ok () ↔
      (s = "disable" ∨ s = "require" ∨ s = "verify-ca" ∨ s = "verify-full") := by
  unfold validateSSLMode validModes
  by_cases h : s ∈ (["disable", "require", "verify-ca", "verify-full"] : List String)
  · simp only [List.mem_cons, List.mem_singleton, List.not_mem_nil, or_false] at h
    rcases h with h | h | h | h <;> subst h <;> simp
  · have hc : (["disable", "require", "verify-ca", "verify-full"] : List String).contains s = false := by
      simpa using h
    simp only [List.mem_cons, List.not_mem_nil, or_false] at h
    push_neg at h
    simp [hc, h]

theorem sourceSSL_invalid_aborts (env : Env) (flags : Flags) (stdin : Stdin)
    (h : validateSSLMode flags.sourceSSL ≠ .ok ()) :
    runSchemaMigration env flags stdin = ([], .fail) := by
  unfold runSchemaMigration
  cases hp : parseMigrationOptions flags.mode flags.outputDir flags.dryRun
      flags.includeRoles flags.noBackup <;> simp only [hp]
  unfold getSourceConfig
  cases hv : validateSSLMode flags.sourceSSL with
  | error e => simp
  | ok u => cases u; exact absurd hv h

theorem destSSL_invalid_aborts (env : Env) (flags : Flags) (stdin : Stdin)
    (hm : flags.mode = "direct")
    (h : validateSSLMode flags.destSSL ≠ .ok ()) :
    runSchemaMigration env flags stdin = ([], .fail) := by
  unfold runSchemaMigration
  cases hp : parseMigrationOptions flags.mode flags.outputDir flags.dryRun
      flags.includeRoles flags.noBackup <;> simp only [hp]
  case ok o =>
    have ho : o.Mode = flags.mode := by
      unfold parseMigrationOptions at hp
      split at hp
      · simp at hp
      · simp only [Except.ok.injEq] at hp
        subst hp
        rfl
    cases hs : getSourceConfig flags stdin <;> simp only [hs]
    case ok sc =>
      rw [ho, hm]
      simp only [show (("direct" : String) == "direct") = true from by decide]
      unfold getDestConfig
      cases hv : validateSSLMode flags.destSSL with
      | error e => simp
      | ok u => cases u; exact absurd hv h

/-- C5: SSL mode validation succeeds exactly on the four allowed strings, and
a run whose source (or, in direct mode, destination) SSL mode is invalid
aborts with exit failure and an empty trace, so before any connection
attempt. -/
theorem sslMode_valid_iff_and_invalid_aborts_before_connect :
    (∀ s, validateSSLMode s = .ok () ↔
      (s = "disable" ∨ s = "require" ∨ s = "verify-ca" ∨ s = "verify-full")) ∧
    (∀ (env : Env) (flags : Flags) (stdin : Stdin),
      validateSSLMode flags.sourceSSL ≠ .ok () →
      runSchemaMigration env flags stdin = ([], .fail)) ∧
    (∀ (env : Env) (flags : Flags) (stdin : Stdin), flags.mode = "direct" →
      validateSSLMode flags.destSSL ≠ .ok () →
      runSchemaMigration env flags stdin = ([], .fail)) :=
  ⟨validateSSLMode_iff_mem, sourceSSL_invalid_aborts, destSSL_invalid_aborts⟩

/-- Witness for C5: the invalid SSL mode foo aborts a run with an empty
trace and exit failure. -/
theorem sslMode_valid_iff_and_invalid_aborts_before_connect_witness :
    runSchemaMigration envAllOk { flagsExportReports with sourceSSL := "foo" }
      stdinOk = ([], .fail) :=
  sslMode_valid_iff_and_invalid_aborts_before_connect.2.1 envAllOk
    { flagsExportReports with sourceSSL := "foo" } stdinOk
    (by
      intro h
      rw [show validateSSLMode ({ flagsExportReports with sourceSSL := "foo" } :
          Flags).sourceSSL = .error
          "must be one of: disable, require, verify-ca, verify-full" from rfl] at h
      exact Except.noConfusion h)

/-- C1 evidence: the export-mode scenario (source reports, output dir ./out,
defaults otherwise) with every external operation succeeding runs the schema
export exactly once, never connects to the destination server, writes no
file directly, but terminates in a nil-pointer panic (non-zero exit), not
exit code 0: the commented-out early return makes export mode fall through
into the direct-mode steps with a nil destination profile. -/
theorem export_mode_run_panics_not_exit0 :
    (runSchemaMigration envAllOk flagsExportReports stdinOk).2 = .panicked ∧
    (runSchemaMigration envAllOk flagsExportReports stdinOk).1.countP isPgDumpInvoke = 1 ∧
    (.invoke .pg_dump (exportArgs srcReports
        (filepathJoin "./out" "schema_reports_20240806_143022.sql") optsExport) true)
      ∈ (runSchemaMigration envAllOk flagsExportReports stdinOk).1 ∧
    ((runSchemaMigration envAllOk flagsExportReports stdinOk).1.all
      (fun e => !isDestConn e)) = true ∧
    ((runSchemaMigration envAllOk flagsExportReports stdinOk).1.all
      (fun e => !isWriteFile e)) = true := by
  exact ⟨rfl, rfl, by decide, rfl, rfl⟩


theorem embedsIn_base (p x : String) : embedsIn (p ++ x) x :=
  ⟨p, "", by simp⟩

theorem embedsIn_appendOut {s x : String} (h : embedsIn s x) (t : String) :
    embedsIn (s ++ t) x := by
  obtain ⟨a, b, rfl⟩ := h
  exact ⟨a, b ++ t, by simp [String.append_assoc]⟩

theorem c6b_embeds (n : String) (c : DatabaseConfig) (bf : String) :
    embedsIn (rollbackScriptContent n c bf) n ∧
    embedsIn (rollbackScriptContent n c bf) c.Host ∧
    embedsIn (rollbackScriptContent n c bf) c.Port ∧
    embedsIn (rollbackScriptContent n c bf) c.Username ∧
    embedsIn (rollbackScriptContent n c bf) c.Database ∧
    embedsIn (rollbackScriptContent n c bf) c.SSLMode ∧
    embedsIn (rollbackScriptContent n c bf) bf := by
  unfold rollbackScriptContent
  refine ⟨?_, ?_, ?_, ?_, ?_, ?_, ?_⟩ <;>
    repeat first
      | exact embedsIn_base _ _
      | apply embedsIn_appendOut

theorem c6a (w : Option String) (n : String) (c : DatabaseConfig) (bf : String)
    (o : MigrationOptions) (h : o.CreateBackup = false ∨ bf = "") :
    generateRollbackScript w n c bf o = ([], .ok ()) := by
  rcases h with h | h <;> simp [generateRollbackScript, h]

theorem c6write (n : String) (c : DatabaseConfig) (bf : String)
    (o : MigrationOptions) (hc : o.CreateBackup = true) (hb : bf ≠ "") :
    generateRollbackScript none n c bf o =
      ([.writeFile (filepathJoin o.OutputDir "rollback.sh")
          (rollbackScriptContent n c bf) 493 true], .ok ()) := by
  have hbf : (bf == "") = false := beq_eq_false_iff_ne.mpr hb
  simp [generateRollbackScript, hc, hbf]

theorem c6pw (n : String) (c : DatabaseConfig) (bf p p2 : String) :
    rollbackScriptContent n { c with Password := p } bf =
      rollbackScriptContent n { c with Password := p2 } bf := rfl

/-- C6: rollback-script generation is a no-op returning success when backups
are disabled or no backup file path was produced; otherwise it writes an
executable (mode 0755) script whose content embeds the generation timestamp,
the destination host, port, user and database, the SSL mode, and the backup
file path, and whose content is independent of the actual password (the
script assigns an empty PGPASSWORD for the operator to fill in). -/
theorem rollback_script_noop_or_embeds_fields_never_password :
    (∀ (w : Option String) (n : String) (c : DatabaseConfig) (bf : String)
       (o : MigrationOptions), o.CreateBackup = false ∨ bf = "" →
       generateRollbackScript w n c bf o = ([], .ok ())) ∧
    (∀ (n : String) (c : DatabaseConfig) (bf : String) (o : MigrationOptions),
       o.CreateBackup = true → bf ≠ "" →
       generateRollbackScript none n c bf o =
         ([.writeFile (filepathJoin o.OutputDir "rollback.sh")
             (rollbackScriptContent n c bf) 493 true], .ok ()) ∧
       embedsIn (rollbackScriptContent n c bf) n ∧
       embedsIn (rollbackScriptContent n c bf) c.Host ∧
       embedsIn (rollbackScriptContent n c bf) c.Port ∧
       embedsIn (rollbackScriptContent n c bf) c.Username ∧
       embedsIn (rollbackScriptContent n c bf) c.Database ∧
       embedsIn (rollbackScriptContent n c bf) c.SSLMode ∧
       embedsIn (rollbackScriptContent n c bf) bf) ∧
    (∀ (n : String) (c : DatabaseConfig) (bf p p2 : String),
       rollbackScriptContent n { c with Password := p } bf =
         rollbackScriptContent n { c with Password := p2 } bf) :=
  ⟨c6a,
   fun n c bf o hc hb => ⟨c6write n c bf o hc hb,
     (c6b_embeds n c bf).1, (c6b_embeds n c bf).2.1, (c6b_embeds n c bf).2.2.1,
     (c6b_embeds n c bf).2.2.2.1, (c6b_embeds n c bf).2.2.2.2.1,
     (c6b_embeds n c bf).2.2.2.2.2.1, (c6b_embeds n c bf).2.2.2.2.2.2⟩,
   c6pw⟩

/-- Witness for C6 at a concrete profile: the generated script embeds the
destination host, and a backup-disabled call is a no-op success. -/
theorem rollback_script_noop_or_embeds_fields_never_password_witness :
    generateRollbackScript none "t1" dstStaging "b.sql" optsNoBackup = ([], .ok ()) ∧
    embedsIn (rollbackScriptContent "t1" dstStaging "b.sql") dstStaging.Host :=
  ⟨rollback_script_noop_or_embeds_fields_never_password.1 none "t1" dstStaging
     "b.sql" optsNoBackup (Or.inl rfl),
   (rollback_script_noop_or_embeds_fields_never_password.2.1 "t1" dstStaging
     "b.sql" optsDirect rfl (by decide)).2.2.1⟩

theorem c9export (r : Option String) (c : DatabaseConfig) (f : String)
    (o : MigrationOptions) :
    invokesUnderPgpw false (exportSchema r c f o).1 = true ∧
    pgpwFrom false (exportSchema r c f o).1 = false ∧
    (Event.setEnv .PGPASSWORD c.Password) ∈ (exportSchema r c f o).1 ∧
    (∀ p p2, invokeArgvs (exportSchema r { c with Password := p } f o).1 =
      invokeArgvs (exportSchema r { c with Password := p2 } f o).1) := by
  refine ⟨?_, ?_, ?_, ?_⟩ <;>
    cases r <;>
      simp [exportSchema, exportArgs, invokesUnderPgpw, pgpwFrom, invokeArgvs]

theorem c9backup (eo : Except String Bool) (r : Option String)
    (c : DatabaseConfig) (bf : String) (o : MigrationOptions) :
    invokesUnderPgpw false (createDestinationBackup eo r c bf o).1 = true ∧
    pgpwFrom false (createDestinationBackup eo r c bf o).1 = false ∧
    ((createDestinationBackup eo r c bf o).1.any isInvoke = true →
      (Event.setEnv .PGPASSWORD c.Password) ∈ (createDestinationBackup eo r c bf o).1) ∧
    (∀ p p2, invokeArgvs (createDestinationBackup eo r { c with Password := p } bf o).1 =
      invokeArgvs (createDestinationBackup eo r { c with Password := p2 } bf o).1) := by
  rcases eo with e | b
  · refine ⟨?_, ?_, ?_, ?_⟩ <;>
      simp [createDestinationBackup, databaseExists, backupArgs, invokesUnderPgpw,
        pgpwFrom, invokeArgvs, isInvoke]
  · cases b <;> cases r <;>
      (refine ⟨?_, ?_, ?_, ?_⟩ <;>
        simp [createDestinationBackup, databaseExists, backupArgs, invokesUnderPgpw,
          pgpwFrom, invokeArgvs, isInvoke])

theorem c9apply (r : Option String) (c : DatabaseConfig) (f : String) :
    invokesUnderPgpw false (applySchema r c f).1 = true ∧
    pgpwFrom false (applySchema r c f).1 = false ∧
    (Event.setEnv .PGPASSWORD c.Password) ∈ (applySchema r c f).1 ∧
    (∀ p p2, invokeArgvs (applySchema r { c with Password := p } f).1 =
      invokeArgvs (applySchema r { c with Password := p2 } f).1) := by
  refine ⟨?_, ?_, ?_, ?_⟩ <;>
    cases r <;>
      simp [applySchema, invokesUnderPgpw, pgpwFrom, invokeArgvs]

/-- C9: each of the export, backup, and apply operations passes the password
to the external tool only through the PGPASSWORD environment variable: every
subprocess invocation happens while PGPASSWORD is set, the variable is unset
again on every exit path (success or failure), whenever the external tool is
invoked the trace contains the PGPASSWORD assignment of the profile
password, and the invocation argument vectors are independent of the
password (so it is never passed on the command line). -/
theorem password_via_env_cleared_never_argv :
    (∀ (r : Option String) (c : DatabaseConfig) (f : String)
       (o : MigrationOptions),
      invokesUnderPgpw false (exportSchema r c f o).1 = true ∧
      pgpwFrom false (exportSchema r c f o).1 = false ∧
      (Event.setEnv .PGPASSWORD c.Password) ∈ (exportSchema r c f o).1 ∧
      (∀ p p2, invokeArgvs (exportSchema r { c with Password := p } f o).1 =
        invokeArgvs (exportSchema r { c with Password := p2 } f o).1)) ∧
    (∀ (eo : Except String Bool) (r : Option String) (c : DatabaseConfig)
       (bf : String) (o : MigrationOptions),
      invokesUnderPgpw false (createDestinationBackup eo r c bf o).1 = true ∧
      pgpwFrom false (createDestinationBackup eo r c bf o).1 = false ∧
      ((createDestinationBackup eo r c bf o).1.any isInvoke = true →
        (Event.setEnv .PGPASSWORD c.Password) ∈
          (createDestinationBackup eo r c bf o).1) ∧
      (∀ p p2,
        invokeArgvs (createDestinationBackup eo r { c with Password := p } bf o).1 =
        invokeArgvs (createDestinationBackup eo r { c with Password := p2 } bf o).1)) ∧
    (∀ (r : Option String) (c : DatabaseConfig) (f : String),
      invokesUnderPgpw false (applySchema r c f).1 = true ∧
      pgpwFrom false (applySchema r c f).1 = false ∧
      (Event.setEnv .PGPASSWORD c.Password) ∈ (applySchema r c f).1 ∧
      (∀ p p2, invokeArgvs (applySchema r { c with Password := p } f).1 =
        invokeArgvs (applySchema r { c with Password := p2 } f).1)) :=
  ⟨c9export, c9backup, c9apply⟩

/-- Witness for C9: a concrete backup invocation records the PGPASSWORD
assignment of the profile password. -/
theorem password_via_env_cleared_never_argv_witness :
    (Event.setEnv .PGPASSWORD dstStaging.Password) ∈
      (createDestinationBackup (.ok true) none dstStaging "b.sql" optsDirect).1 :=
  (password_via_env_cleared_never_argv.2.1 (.ok true) none dstStaging "b.sql"
    optsDirect).2.2.1 (by decide)


theorem filepathJoin_beq_empty (a b : String) : (filepathJoin a b == "") = false := by
  apply beq_eq_false_iff_ne.mpr
  intro h
  have hl := congrArg String.length h
  simp [filepathJoin, String.length_append] at hl
  exact absurd hl.1.2 (by decide)

theorem c8comp (r : Option String) (c : DatabaseConfig) (bf : String)
    (o : MigrationOptions) :
    createDestinationBackup (.ok false) r c bf o =
      ([.openConn .dest c.Host "postgres",
        .execSQL (.queryExists c.Database) true], .ok ()) := rfl

theorem c8run (env : Env) (src d : DatabaseConfig) (opts : MigrationOptions)
    (hbe : env.backupExists = .ok false) (hcb : opts.CreateBackup = true)
    (hdry : opts.DryRun = false) (hmk : env.mkdirErr = none)
    (hex : env.exportRunErr = none) (hde : env.dropExists = .ok true)
    (hdr : env.dropErr = none) (hcr : env.createErr = none)
    (hap : env.applyRunErr = none) :
    (performSchemaMigration env src (some d) opts).2 = .ok ∧
    (performSchemaMigration env src (some d) opts).1.countP isPgDumpInvoke = 1 ∧
    (performSchemaMigration env src (some d) opts).1.any isApplyInvoke = true ∧
    (performSchemaMigration env src (some d) opts).1.any isCreateOkEvent = true := by
  obtain ⟨n1, mk1, sp1, dp1, ex1, be1, br1, de1, te1, dr1, cr1, ap1, rw1⟩ := env
  simp only at hbe hmk hex hde hdr hcr hap
  subst hbe hmk hex hde hdr hcr hap
  cases te1 <;> cases rw1 <;>
    refine ⟨?_, ?_, ?_, ?_⟩ <;>
      simp [performSchemaMigration, createDirectories, exportSchema,
        createDestinationBackup, databaseExists, recreateDestinationDatabase,
        dropDatabaseIfExists, createDatabase, applySchema, generateRollbackScript,
        hcb, hdry, filepathJoin_beq_empty, isPgDumpInvoke, isApplyInvoke,
        isCreateOkEvent, List.countP_cons, List.countP_append]

/-- C8: with backups enabled and a destination database that does not exist,
the backup operation returns success after only the existence check (no dump
tool invocation, hence no backup file), and the migration still proceeds: the
run ends in success with exactly one pg_dump invocation (the schema export),
a successful CREATE DATABASE, and a psql schema application. -/
theorem backup_skipped_when_dest_absent_and_migration_proceeds :
    (∀ (r : Option String) (c : DatabaseConfig) (bf : String)
       (o : MigrationOptions),
      createDestinationBackup (.ok false) r c bf o =
        ([.openConn .dest c.Host "postgres",
          .execSQL (.queryExists c.Database) true], .ok ())) ∧
    (∀ (env : Env) (src d : DatabaseConfig) (opts : MigrationOptions),
      env.backupExists = .ok false → opts.CreateBackup = true →
      opts.DryRun = false → env.mkdirErr = none → env.exportRunErr = none →
      env.dropExists = .ok true → env.dropErr = none → env.createErr = none →
      env.applyRunErr = none →
      (performSchemaMigration env src (some d) opts).2 = .ok ∧
      (performSchemaMigration env src (some d) opts).1.countP isPgDumpInvoke = 1 ∧
      (performSchemaMigration env src (some d) opts).1.any isApplyInvoke = true ∧
      (performSchemaMigration env src (some d) opts).1.any isCreateOkEvent = true) :=
  ⟨c8comp, fun env src d opts hbe hcb hdry hmk hex hde hdr hcr hap =>
    c8run env src d opts hbe hcb hdry hmk hex hde hdr hcr hap⟩

/-- Witness for C8 at a concrete run with an absent destination database. -/
theorem backup_skipped_when_dest_absent_and_migration_proceeds_witness :
    (performSchemaMigration { envAllOk with backupExists := .ok false }
      srcReports (some dstStaging) optsDirect).2 = .ok ∧
    (performSchemaMigration { envAllOk with backupExists := .ok false }
      srcReports (some dstStaging) optsDirect).1.countP isPgDumpInvoke = 1 :=
  ⟨(backup_skipped_when_dest_absent_and_migration_proceeds.2
      { envAllOk with backupExists := .ok false } srcReports dstStaging
      optsDirect rfl rfl rfl rfl rfl rfl rfl rfl rfl).1,
   (backup_skipped_when_dest_absent_and_migration_proceeds.2
      { envAllOk with backupExists := .ok false } srcReports dstStaging
      optsDirect rfl rfl rfl rfl rfl rfl rfl rfl rfl).2.1⟩


/-- C7: whenever the destination backup step fails in a non-dry direct-mode
run (here: the existence check finds the database but the backup dump tool
fails), the orchestrator records the continuing warning in the trace and the
run outcome is exactly the outcome of the same run with a succeeding backup:
the failure is non-fatal and the migration proceeds to recreate and apply. -/
theorem backup_failure_warns_and_continues (env : Env) (src d : DatabaseConfig) (opts : MigrationOptions)
    (m : String)
    (hdry : opts.DryRun = false) (hcb : opts.CreateBackup = true)
    (hmk : env.mkdirErr = none) (hex : env.exportRunErr = none)
    (hbe : env.backupExists = .ok true) (hbr : env.backupRunErr = some m) :
    (Event.warn ("Backup creation failed (continuing): " ++
        ("backup pg_dump failed: " ++ m)))
      ∈ (performSchemaMigration env src (some d) opts).1 ∧
    (performSchemaMigration env src (some d) opts).2 =
      (performSchemaMigration { env with backupRunErr := none } src
        (some d) opts).2 := by
  have hrec : recreateDestinationDatabase
      ⟨env.now, none, env.sourcePingErr, env.destPingErr, none, Except.ok true,
        none, env.dropExists, env.terminateErr, env.dropErr, env.createErr,
        env.applyRunErr, env.rollbackWriteErr⟩ d
      = recreateDestinationDatabase env d := rfl
  constructor
  · simp only [performSchemaMigration, hmk, hex, hbe, hbr, hcb, hdry,
      createDirectories, exportSchema, createDestinationBackup, databaseExists]
    cases hr4 : (recreateDestinationDatabase env d).2 <;> simp only [hr4] <;>
      [simp;
       (cases hr5 : (applySchema env.applyRunErr d
          (filepathJoin opts.OutputDir
            ("schema_" ++ src.Database ++ "_" ++ env.now ++ ".sql"))).2 <;>
        simp only [hr5] <;>
        [simp;
         (cases hr6 : (generateRollbackScript env.rollbackWriteErr env.now d
            (filepathJoin opts.BackupDir
              ("backup_" ++ d.Database ++ "_" ++ env.now ++ ".sql")) opts).2 <;>
          simp only [hr6] <;> simp)])]
  · simp only [performSchemaMigration, hmk, hex, hbe, hbr, hcb, hdry,
      createDirectories, exportSchema, createDestinationBackup, databaseExists,
      hrec]
    cases hr4 : (recreateDestinationDatabase env d).2 <;> simp only [hr4]
    cases hr5 : (applySchema env.applyRunErr d
        (filepathJoin opts.OutputDir
          ("schema_" ++ src.Database ++ "_" ++ env.now ++ ".sql"))).2 <;>
      simp only [hr5]


/-- Witness for C7 at a concrete run whose backup dump fails. -/
theorem backup_failure_warns_and_continues_witness :
    (Event.warn
        "Backup creation failed (continuing): backup pg_dump failed: disk full")
      ∈ (performSchemaMigration { envAllOk with backupRunErr := some "disk full" }
          srcReports (some dstStaging) optsDirect).1 :=
  (backup_failure_warns_and_continues
    { envAllOk with backupRunErr := some "disk full" } srcReports dstStaging
    optsDirect "disk full" rfl rfl rfl rfl rfl rfl).1


theorem destConnOk_createDirectories (m : Option String) (o : MigrationOptions) :
    (createDirectories m o).1.all destConnOk = true := by
  cases m <;> cases h : o.CreateBackup <;> simp [createDirectories, h, destConnOk]

theorem destConnOk_exportSchema (r : Option String) (c : DatabaseConfig)
    (f : String) (o : MigrationOptions) :
    (exportSchema r c f o).1.all destConnOk = true := by
  cases r <;> simp [exportSchema, destConnOk]

theorem destConnOk_createDestinationBackup (eo : Except String Bool)
    (r : Option String) (c : DatabaseConfig) (bf : String)
    (o : MigrationOptions) :
    (createDestinationBackup eo r c bf o).1.all destConnOk = true := by
  rcases eo with e | b
  · simp [createDestinationBackup, databaseExists, destConnOk]
  · cases b <;> cases r <;> simp [createDestinationBackup, databaseExists, destConnOk]

theorem destConnOk_recreate (env : Env) (c : DatabaseConfig) :
    (recreateDestinationDatabase env c).1.all destConnOk = true := by
  obtain ⟨n1, m1, s1, d1, e1, b1, b2, de, te, dr, cr, a1, r1⟩ := env
  unfold recreateDestinationDatabase dropDatabaseIfExists createDatabase databaseExists
  rcases de with e | b
  · simp [destConnOk]
  · cases b <;> cases te <;> cases dr <;> cases cr <;> simp [destConnOk]

theorem destConnOk_applySchema (r : Option String) (c : DatabaseConfig)
    (f : String) :
    (applySchema r c f).1.all destConnOk = true := by
  cases r <;> simp [applySchema, destConnOk]

theorem destConnOk_generateRollbackScript (w : Option String) (n : String)
    (c : DatabaseConfig) (bf : String) (o : MigrationOptions) :
    (generateRollbackScript w n c bf o).1.all destConnOk = true := by
  unfold generateRollbackScript
  split
  · simp
  · cases w <;> simp [destConnOk]

theorem destConnOk_validateSourceConnection (p : Option String)
    (c : DatabaseConfig) :
    (validateSourceConnection p c).1.all destConnOk = true := by
  cases p <;> simp [validateSourceConnection, destConnOk]

theorem destConnOk_validateConnections (p q : Option String)
    (c d : DatabaseConfig) :
    (validateConnections p q c d).1.all destConnOk = true := by
  cases p <;> cases q <;>
    simp [validateConnections, validateSourceConnection, destConnOk]

theorem destConnOk_performSchemaMigration (env : Env) (src : DatabaseConfig)
    (dst : Option DatabaseConfig) (opts : MigrationOptions) :
    (performSchemaMigration env src dst opts).1.all destConnOk = true := by
  unfold performSchemaMigration
  cases h1 : (createDirectories env.mkdirErr opts).2 <;> simp only [h1]
  · exact destConnOk_createDirectories env.mkdirErr opts
  set sf := filepathJoin opts.OutputDir ("schema_" ++ src.Database ++ "_" ++ env.now ++ ".sql") with hsf
  cases h2 : (exportSchema env.exportRunErr src sf opts).2 <;> simp only [h2]
  · simp [List.all_append, destConnOk_createDirectories, destConnOk_exportSchema]
  cases dst with
  | none =>
    simp [List.all_append, destConnOk_createDirectories, destConnOk_exportSchema]
  | some d =>
    dsimp only
    set bf := filepathJoin opts.BackupDir ("backup_" ++ d.Database ++ "_" ++ env.now ++ ".sql") with hbf
    cases hCB : opts.CreateBackup <;> simp only [hCB]
    case false =>
      cases hdry : opts.DryRun <;> simp only [hdry]
      case false =>
        cases h4 : (recreateDestinationDatabase env d).2 <;> simp only [h4]
        · simp [List.all_append, destConnOk_createDirectories, destConnOk_exportSchema,
            destConnOk_recreate]
        cases h5 : (applySchema env.applyRunErr d sf).2 <;> simp only [h5]
        · simp [List.all_append, destConnOk_createDirectories, destConnOk_exportSchema,
            destConnOk_recreate, destConnOk_applySchema]
        cases h6 : (generateRollbackScript env.rollbackWriteErr env.now d "" opts).2 <;>
          simp [h6, List.all_append, destConnOk_createDirectories, destConnOk_exportSchema,
            destConnOk_recreate, destConnOk_applySchema, destConnOk_generateRollbackScript,
            destConnOk]
      case true =>
        cases h6 : (generateRollbackScript env.rollbackWriteErr env.now d "" opts).2 <;>
          simp [h6, List.all_append, destConnOk_createDirectories, destConnOk_exportSchema,
            destConnOk_generateRollbackScript, destConnOk]
    case true =>
      cases h3 : (createDestinationBackup env.backupExists env.backupRunErr d bf opts).2 <;>
        simp only [h3] <;>
      · cases hdry : opts.DryRun <;> simp only [hdry]
        case false =>
          cases h4 : (recreateDestinationDatabase env d).2 <;> simp only [h4]
          · simp [List.all_append, destConnOk_createDirectories, destConnOk_exportSchema,
              destConnOk_createDestinationBackup, destConnOk_recreate, destConnOk]
          cases h5 : (applySchema env.applyRunErr d sf).2 <;> simp only [h5]
          · simp [List.all_append, destConnOk_createDirectories, destConnOk_exportSchema,
              destConnOk_createDestinationBackup, destConnOk_recreate, destConnOk_applySchema,
              destConnOk]
          cases h6 : (generateRollbackScript env.rollbackWriteErr env.now d bf opts).2 <;>
            simp [h6, List.all_append, destConnOk_createDirectories, destConnOk_exportSchema,
              destConnOk_createDestinationBackup, destConnOk_recreate, destConnOk_applySchema,
              destConnOk_generateRollbackScript, destConnOk]
        case true =>
          cases h6 : (generateRollbackScript env.rollbackWriteErr env.now d bf opts).2 <;>
            simp [h6, List.all_append, destConnOk_createDirectories, destConnOk_exportSchema,
              destConnOk_createDestinationBackup, destConnOk_generateRollbackScript, destConnOk]

theorem destConnOk_runSchemaMigration (env : Env) (flags : Flags)
    (stdin : Stdin) :
    (runSchemaMigration env flags stdin).1.all destConnOk = true := by
  unfold runSchemaMigration
  cases hp : parseMigrationOptions flags.mode flags.outputDir flags.dryRun
      flags.includeRoles flags.noBackup <;> simp only [hp]
  · rfl
  case ok o =>
    cases hs : getSourceConfig flags stdin <;> simp only [hs]
    · rfl
    case ok sc =>
      cases hm : (o.Mode == "direct") <;> simp only [hm]
      case false =>
        cases hv : (validateSourceConnection env.sourcePingErr sc).2 <;> simp only [hv]
        · exact destConnOk_validateSourceConnection env.sourcePingErr sc
        · simp [List.all_append, destConnOk_validateSourceConnection,
            destConnOk_performSchemaMigration]
      case true =>
        cases hd : getDestConfig flags stdin sc.Database <;> simp only [hd]
        · rfl
        case ok dc =>
          cases hv : (validateConnections env.sourcePingErr env.destPingErr sc dc).2 <;>
            simp only [hv]
          · exact destConnOk_validateConnections env.sourcePingErr env.destPingErr sc dc
          · simp [List.all_append, destConnOk_validateConnections,
              destConnOk_performSchemaMigration]

/-- C10: in every run, every direct SQL connection opened against the
destination server (connection validation, the existence checks, the
session-termination and DROP connection, and the CREATE connection) uses
dbname postgres, the maintenance database; consequently no destination-side
connection is ever opened to the destination database itself whenever its
name differs from postgres. -/
theorem dest_admin_connections_use_postgres :
    (∀ (env : Env) (flags : Flags) (stdin : Stdin),
      (runSchemaMigration env flags stdin).1.all destConnOk = true) ∧
    (∀ (env : Env) (flags : Flags) (stdin : Stdin) (h db : String),
      db ≠ "postgres" →
      (Event.openConn .dest h db) ∉ (runSchemaMigration env flags stdin).1) := by
  refine ⟨destConnOk_runSchemaMigration, ?_⟩
  intro env flags stdin h db hne hmem
  have hall := List.all_eq_true.mp (destConnOk_runSchemaMigration env flags stdin)
    _ hmem
  simp only [destConnOk, beq_iff_eq] at hall
  exact hne hall

/-- Witness for C10: a concrete direct-mode run never opens a destination
connection to the destination database shop_staging itself. -/
theorem dest_admin_connections_use_postgres_witness :
    (Event.openConn .dest "dest.example.com" "shop_staging") ∉
      (runSchemaMigration envAllOk
        { flagsExportReports with mode := "direct", destDB := "shop_staging" }
        stdinOk).1 :=
  dest_admin_connections_use_postgres.2 envAllOk
    { flagsExportReports with mode := "direct", destDB := "shop_staging" }
    stdinOk "dest.example.com" "shop_staging" (by decide)


theorem quiet_cons (e : Event) (t : List Event) :
    quiet (e :: t) = (quietEvent e && quiet t) := by simp [quiet]

theorem quietEvent_report : quietEvent .dryRunReport = true := rfl

theorem quietEvent_warn (m : String) : quietEvent (.warn m) = true := rfl

theorem createDirectories_none_ok (o : MigrationOptions) :
    (createDirectories none o).2 = Except.ok () := by
  cases h : o.CreateBackup <;> simp [createDirectories, h]

theorem exportSchema_none_ok (c : DatabaseConfig) (f : String)
    (o : MigrationOptions) : (exportSchema none c f o).2 = Except.ok () := rfl

theorem exportSchema_any_pgdump (r : Option String) (c : DatabaseConfig)
    (f : String) (o : MigrationOptions) :
    (exportSchema r c f o).1.any isPgDumpInvoke = true := by
  cases r <;> simp [exportSchema, isPgDumpInvoke]

theorem backup_any_queryExists (eo : Except String Bool) (r : Option String)
    (c : DatabaseConfig) (bf : String) (o : MigrationOptions) :
    (createDestinationBackup eo r c bf o).1.any isQueryExists = true := by
  rcases eo with e | b
  · simp [createDestinationBackup, databaseExists, isQueryExists]
  · cases b <;> cases r <;>
      simp [createDestinationBackup, databaseExists, isQueryExists]

theorem rollback_any_writeFile (w : Option String) (n : String)
    (c : DatabaseConfig) (a b : String) (o : MigrationOptions)
    (hcb : o.CreateBackup = true) :
    (generateRollbackScript w n c (filepathJoin a b) o).1.any isWriteFile = true := by
  cases w <;>
    simp [generateRollbackScript, hcb, filepathJoin_beq_empty, isWriteFile]

/-- C3 counterexample: an export-mode dry-run with backups enabled (source
reports, defaults otherwise, all external operations succeeding) still runs
the schema export, but panics on the nil destination profile before the
backup step: no existence check, no backup dump, and no rollback script
generation happen, contradicting the claim that every dry-run with backups
enabled still invokes the destination backup and the rollback-script
generation. -/
theorem dry_run_export_backup_claim_fails :
    ({ flagsExportReports with dryRun := true } : Flags).dryRun = true ∧
    ({ flagsExportReports with dryRun := true } : Flags).noBackup = false ∧
    (runSchemaMigration envAllOk { flagsExportReports with dryRun := true }
      stdinOk).2 = .panicked ∧
    (runSchemaMigration envAllOk { flagsExportReports with dryRun := true }
      stdinOk).1.countP isPgDumpInvoke = 1 ∧
    (runSchemaMigration envAllOk { flagsExportReports with dryRun := true }
      stdinOk).1.countP isQueryExists = 0 ∧
    ((runSchemaMigration envAllOk { flagsExportReports with dryRun := true }
      stdinOk).1.all fun e => !isWriteFile e) = true :=
  ⟨rfl, rfl, rfl, rfl, rfl, rfl⟩

/-- C3 amended: a dry-run never invokes DROP DATABASE, CREATE DATABASE, or
the schema-applying psql (the trace is quiet); it still invokes the schema
export whenever directory creation succeeds; and in direct mode (destination
profile present) with backups enabled and a successful export it still
invokes the destination backup (its existence check runs) and the
rollback-script generation (the script write is attempted).  The original
claim fails for export mode, where the run panics before the backup step. -/
theorem dry_run_never_destructive_still_exports_backs_up :
    (∀ (env : Env) (src : DatabaseConfig) (dst : Option DatabaseConfig)
       (opts : MigrationOptions), opts.DryRun = true →
       quiet (performSchemaMigration env src dst opts).1 = true) ∧
    (∀ (env : Env) (src : DatabaseConfig) (dst : Option DatabaseConfig)
       (opts : MigrationOptions), opts.DryRun = true → env.mkdirErr = none →
       (performSchemaMigration env src dst opts).1.any isPgDumpInvoke = true) ∧
    (∀ (env : Env) (src d : DatabaseConfig) (opts : MigrationOptions),
       opts.DryRun = true → opts.CreateBackup = true →
       env.mkdirErr = none → env.exportRunErr = none →
       (performSchemaMigration env src (some d) opts).1.any isQueryExists = true ∧
       (performSchemaMigration env src (some d) opts).1.any isWriteFile = true) := by
  refine ⟨?_, ?_, ?_⟩
  · intro env src dst opts hdry
    have qd := quiet_createDirectories env.mkdirErr opts
    unfold performSchemaMigration
    cases h1 : (createDirectories env.mkdirErr opts).2 <;> simp only [h1]
    · exact qd
    set sf := filepathJoin opts.OutputDir ("schema_" ++ src.Database ++ "_" ++ env.now ++ ".sql") with hsf
    have qe := quiet_exportSchema env.exportRunErr src sf opts
    cases h2 : (exportSchema env.exportRunErr src sf opts).2 <;> simp only [h2]
    · simp [quiet_append, qd, qe]
    cases dst with
    | none => simp [quiet_append, qd, qe]
    | some d =>
      dsimp only
      set bf := filepathJoin opts.BackupDir ("backup_" ++ d.Database ++ "_" ++ env.now ++ ".sql") with hbf
      have qb := quiet_createDestinationBackup env.backupExists env.backupRunErr d bf opts
      cases hCB : opts.CreateBackup <;> simp only [hCB, hdry]
      case false =>
        cases h6 : (generateRollbackScript env.rollbackWriteErr env.now d "" opts).2 <;>
          simp [h6, quiet_append, quiet_cons, quietEvent_report, quietEvent_warn, qd, qe,
            quiet_generateRollbackScript]
      case true =>
        cases h3 : (createDestinationBackup env.backupExists env.backupRunErr d bf opts).2 <;>
          simp only [h3] <;>
        · cases h6 : (generateRollbackScript env.rollbackWriteErr env.now d bf opts).2 <;>
            simp [h6, quiet_append, quiet_cons, quietEvent_report, quietEvent_warn, qd, qe, qb,
              quiet_generateRollbackScript]
  · intro env src dst opts hdry hmk
    unfold performSchemaMigration
    simp only [hmk, createDirectories_none_ok]
    cases h2 : (exportSchema env.exportRunErr src
        (filepathJoin opts.OutputDir
          ("schema_" ++ src.Database ++ "_" ++ env.now ++ ".sql")) opts).2 <;>
      simp only [h2]
    · simp [List.any_append, exportSchema_any_pgdump]
    cases dst with
    | none => simp [List.any_append, exportSchema_any_pgdump]
    | some d =>
      dsimp only
      cases hCB : opts.CreateBackup <;> simp only [hCB, hdry]
      case false =>
        cases h6 : (generateRollbackScript env.rollbackWriteErr env.now d "" opts).2 <;>
          simp [h6, List.any_append, exportSchema_any_pgdump]
      case true =>
        cases h3 : (createDestinationBackup env.backupExists env.backupRunErr d
            (filepathJoin opts.BackupDir
              ("backup_" ++ d.Database ++ "_" ++ env.now ++ ".sql")) opts).2 <;>
          simp only [h3] <;>
        · cases h6 : (generateRollbackScript env.rollbackWriteErr env.now d
              (filepathJoin opts.BackupDir
                ("backup_" ++ d.Database ++ "_" ++ env.now ++ ".sql")) opts).2 <;>
            simp [h6, List.any_append, exportSchema_any_pgdump]
  · intro env src d opts hdry hcb hmk hex
    unfold performSchemaMigration
    simp only [hmk, hex, hcb, hdry, createDirectories_none_ok, exportSchema_none_ok]
    constructor <;>
    · cases h3 : (createDestinationBackup env.backupExists env.backupRunErr d
          (filepathJoin opts.BackupDir
            ("backup_" ++ d.Database ++ "_" ++ env.now ++ ".sql")) opts).2 <;>
        simp only [h3] <;>
      · cases h6 : (generateRollbackScript env.rollbackWriteErr env.now d
            (filepathJoin opts.BackupDir
              ("backup_" ++ d.Database ++ "_" ++ env.now ++ ".sql")) opts).2 <;>
          simp [h6, List.any_append, backup_any_queryExists,
            rollback_any_writeFile _ _ _ _ _ _ hcb, isQueryExists, isWriteFile]

/-- Witness for the amended C3 at a concrete direct-mode dry-run with
backups enabled: no destructive events, and the rollback script write is
attempted. -/
theorem dry_run_never_destructive_still_exports_backs_up_witness :
    quiet (performSchemaMigration envAllOk srcReports (some dstStaging)
      { optsDirect with DryRun := true }).1 = true ∧
    (performSchemaMigration envAllOk srcReports (some dstStaging)
      { optsDirect with DryRun := true }).1.any isWriteFile = true :=
  ⟨dry_run_never_destructive_still_exports_backs_up.1 envAllOk srcReports
     (some dstStaging) { optsDirect with DryRun := true } rfl,
   (dry_run_never_destructive_still_exports_backs_up.2.2 envAllOk srcReports
     dstStaging { optsDirect with DryRun := true } rfl rfl rfl rfl).2⟩

/-- C4 counterexample: a run in which CREATE DATABASE fails after a
successful drop (destination lost) returns exactly the same outcome value as
a run in which the DROP itself fails (destination untouched): the generic
recreate-failure error with the underlying cause appended.  There is no
distinct, clearly-labeled destination-lost error state, refuting the claim
as stated. -/
theorem create_fail_after_drop_reported_like_drop_fail :
    (performSchemaMigration
        { envAllOk with createErr := some "connection reset by peer" }
        srcReports (some dstStaging) optsNoBackup).2 =
      (performSchemaMigration
        { envAllOk with dropErr := some "connection reset by peer" }
        srcReports (some dstStaging) optsNoBackup).2 ∧
    (performSchemaMigration
        { envAllOk with createErr := some "connection reset by peer" }
        srcReports (some dstStaging) optsNoBackup).2 =
      .error "failed to recreate destination database: connection reset by peer" ∧
    destStateAfter (performSchemaMigration
        { envAllOk with createErr := some "connection reset by peer" }
        srcReports (some dstStaging) optsNoBackup).1 = .dropped ∧
    destStateAfter (performSchemaMigration
        { envAllOk with dropErr := some "connection reset by peer" }
        srcReports (some dstStaging) optsNoBackup).1 = .initial :=
  ⟨rfl, rfl, rfl, rfl⟩

/-- C4 amended: recreateDestinationDatabase composes drop-if-exists followed
by create; when create fails after a successful drop, the run aborts fatally
before any schema application, leaving the destination in the dropped state,
but the reported error is the generic recreate-failure wrapper around the
underlying cause, not a distinct destination-lost error state. -/
theorem recreate_composes_and_create_failure_generic (env : Env)
    (src d : DatabaseConfig) (opts : MigrationOptions) (m : String)
    (hdry : opts.DryRun = false) (hmk : env.mkdirErr = none)
    (hex : env.exportRunErr = none) (hde : env.dropExists = .ok true)
    (hdr : env.dropErr = none) (hcr : env.createErr = some m) :
    (recreateDestinationDatabase env d).1.any isDropOkEvent = true ∧
    (recreateDestinationDatabase env d).1.any isCreateOkEvent = false ∧
    (recreateDestinationDatabase env d).2 = .error m ∧
    (performSchemaMigration env src (some d) opts).2 =
      .error ("failed to recreate destination database: " ++ m) ∧
    destStateAfter (performSchemaMigration env src (some d) opts).1 = .dropped ∧
    (performSchemaMigration env src (some d) opts).1.any isApplyInvoke = false := by
  obtain ⟨n1, mk1, sp1, dp1, ex1, be1, br1, de1, te1, dr1, cr1, ap1, rw1⟩ := env
  simp only at hmk hex hde hdr hcr
  subst hmk hex hde hdr hcr
  cases te1 <;> rcases be1 with e1 | b1 <;> (try cases b1) <;> cases br1 <;>
    cases hCB : opts.CreateBackup <;>
    refine ⟨?_, ?_, ?_, ?_, ?_, ?_⟩ <;>
      simp [performSchemaMigration, createDirectories, exportSchema,
        createDestinationBackup, databaseExists, recreateDestinationDatabase,
        dropDatabaseIfExists, createDatabase, hCB, hdry, isDropOkEvent,
        isCreateOkEvent, isApplyInvoke, destStateAfter, destStateFrom,
        destStateStep, List.any_append, List.all_append]

/-- Witness for the amended C4 at a concrete create-failure-after-drop run. -/
theorem recreate_composes_and_create_failure_generic_witness :
    (performSchemaMigration
        { envAllOk with createErr := some "boom" }
        srcReports (some dstStaging) optsDirect).2 =
      .error "failed to recreate destination database: boom" ∧
    destStateAfter (performSchemaMigration
        { envAllOk with createErr := some "boom" }
        srcReports (some dstStaging) optsDirect).1 = .dropped :=
  ⟨(recreate_composes_and_create_failure_generic
      { envAllOk with createErr := some "boom" } srcReports dstStaging
      optsDirect "boom" rfl rfl rfl rfl rfl rfl).2.2.2.1,
   (recreate_composes_and_create_failure_generic
      { envAllOk with createErr := some "boom" } srcReports dstStaging
      optsDirect "boom" rfl rfl rfl rfl rfl rfl).2.2.2.2.1⟩


end PgSchemaMigrate
